import Mathlib

/-!
# Arduino ultrasonic radar sketch: embedding and verification

A shallow embedding of `firmware/src/main.cpp`.  The three globals of the sketch
(`scanning`, `currentAngle`, `moveDirection`) form an explicit state record that every
function threads through; every call into the Arduino core, the `Servo` library or the
`Ucglib` display driver is recorded, in program order, as an `Event` of an output trace.

Inputs that come from the outside world are explicit arguments: the byte waiting on the
serial line (`Option Char`, `none` when `Serial.available()` is zero) and the echo pulse
seen by `pulseIn` (`Option Nat`, the pulse width in microseconds, `none` when no pulse
arrives before the timeout).

Pixel coordinates that the sketch computes with floating-point `cos`/`sin` are not
evaluated: the trace records the expression (`Coord`), with the radius and the angle
that the sketch passes in.

`int` values are mathematical integers; the two subtractions and the addition that the
sketch performs on `currentAngle` are reduced to 16 bits (`wrap16`), the width of `int`
on the ATmega328P.
-/

namespace Radar

/-! ## Machine integers and Arduino helpers -/

/-- The value of an `int` on the ATmega328P: 16 bits, two's complement. -/
def wrap16 (x : Int) : Int := (x + 32768) % 65536 - 32768

/-- Arduino's macro `constrain(amt, low, high)`:
`((amt)<(low)?(low):((amt)>(high)?(high):(amt)))`. -/
def constrain (amt low high : Int) : Int :=
  if amt < low then low else if amt > high then high else amt

/-! ## Constants of the sketch -/

def SERVO_PIN : Nat := 3
def ECHO_PIN : Nat := 5
def TRIG_PIN : Nat := 6
def BUTTON_PIN : Nat := 7
def BAUD : Nat := 115200

def ScreenHeight : Int := 128
def ScreenWidth : Int := 160
def CenterX : Int := 80
def BasePosition : Int := 118
def ScanLength : Int := 105

def DEFAULT_ANGLE : Int := 90

/-! ## Output trace -/

inductive Level where
  | LOW
  | HIGH
  deriving DecidableEq, Repr

inductive PinMode where
  | INPUT
  | OUTPUT
  | INPUT_PULLUP
  deriving DecidableEq, Repr

inductive Font where
  | ncenR08_hr
  | ncenR12_hr
  deriving DecidableEq, Repr

/-- Which part of a circle or disc is drawn (the `UCG_DRAW_*` option argument). -/
inductive DrawOption where
  | upperRightUpperLeft
  | all
  deriving DecidableEq, Repr

/-- The radius factor of a polar offset: an `int`, or `1.15 * distance`. -/
inductive Radius where
  | ofInt (r : Int)
  | scaled115 (distance : Int)
  deriving DecidableEq, Repr

/-- A pixel coordinate as the sketch computes it.
* `px n`: the integer `n`;
* `plusCos base r deg`: `base + r * cos(radians(deg))` converted to `int`;
* `minusSin base r deg`: `base - r * sin(radians(deg))` converted to `int`;
* `minusHalfStrWidth base text`: `base - ucg.getStrWidth(text) / 2`. -/
inductive Coord where
  | px (n : Int)
  | plusCos (base : Int) (r : Radius) (deg : Int)
  | minusSin (base : Int) (r : Radius) (deg : Int)
  | minusHalfStrWidth (base : Coord) (text : String)
  deriving DecidableEq, Repr

/-- One call into the hardware libraries. -/
inductive Event where
  | serialBegin (baud : Nat)
  | serialPrint (text : String)
  | serialPrintInt (n : Int)
  | serialPrintln (text : String)
  | serialPrintlnChar (c : Char)
  | serialPrintlnInt (n : Int)
  | pinMode (pin : Nat) (mode : PinMode)
  | digitalWrite (pin : Nat) (level : Level)
  | delayMicroseconds (us : Nat)
  | pulseIn (pin : Nat) (level : Level)
  | delay (ms : Nat)
  | servoAttach (pin : Nat)
  | servoWrite (angle : Int)
  | ucgBegin
  | setRotate90
  | clearScreen
  | setFont (font : Font)
  | setColor (r g b : Nat)
  | setPrintPos (x y : Coord)
  | print (text : String)
  | drawLine (x1 y1 x2 y2 : Coord)
  | drawCircle (x y r : Int) (option : DrawOption)
  | drawDisc (x y : Coord) (r : Int) (option : DrawOption)
  deriving DecidableEq, Repr

/-! ## State -/

/-- The globals `scanning`, `currentAngle` and `moveDirection`. -/
structure RadarState where
  scanning : Bool
  currentAngle : Int
  moveDirection : Int
  deriving DecidableEq, Repr

/-- The initialisers of the globals. -/
def initialState : RadarState :=
  { scanning := false, currentAngle := 90, moveDirection := 0 }

/-! ## Distance sampler -/

/-- Number of binary digits of `n`, for `n < 2 ^ fuel`. -/
def bitLen : Nat → Nat → Nat
  | 0, _ => 0
  | fuel + 1, n => if n = 0 then 0 else bitLen fuel (n / 2) + 1

/-- Rounding of a non-negative integer (in any fixed binary unit) to the 24 significant
bits of an IEEE-754 binary32 number, to nearest, ties to even: `double` is binary32 on
the ATmega328P. -/
def roundF32 (p : Nat) : Nat :=
  let b := bitLen 128 p
  if b ≤ 24 then p
  else
    let s := b - 24
    let q := p / 2 ^ s
    let r := p % 2 ^ s
    let half := 2 ^ (s - 1)
    let q2 := if half < r ∨ (r = half ∧ q % 2 = 1) then q + 1 else q
    q2 * 2 ^ s

/-- The literal `0.034` as a binary32 number: `F32_0_034 * 2 ^ (-28)`. -/
def F32_0_034 : Nat := 9126806

/-- Arduino's `pulseIn(pin, HIGH)`: the width of the pulse in microseconds, or `0` when
no complete pulse was received within the timeout. -/
def pulseIn (echo : Option Nat) : Nat :=
  match echo with
  | none => 0
  | some width => width

/-- `(int)(duration * 0.034 / 2)`: the product is formed in binary32 (unit `2 ^ (-28)`),
halved exactly (unit `2 ^ (-29)`) and truncated.  For every `duration` that `pulseIn`
can return with its one-second timeout the result is below `2 ^ 15`. -/
def scaleDuration (duration : Nat) : Int :=
  Int.ofNat (roundF32 (roundF32 duration * F32_0_034) / 2 ^ 29)

def GetDistance (echo : Option Nat) : Int × List Event :=
  let duration := pulseIn echo
  let distance := scaleDuration duration
  (distance,
    [ .digitalWrite TRIG_PIN .LOW,
      .delayMicroseconds 2,
      .digitalWrite TRIG_PIN .HIGH,
      .delayMicroseconds 10,
      .digitalWrite TRIG_PIN .LOW,
      .pulseIn ECHO_PIN .HIGH ])

/-! ## Actuator controller -/

def MoveRadar (direction : Int) (s : RadarState) : RadarState × List Event :=
  let a1 := wrap16 (s.currentAngle + direction)
  let a2 := constrain a1 0 180
  ({ s with currentAngle := a2 }, [ .servoWrite a2, .delay 15 ])

def SetDefaultPosition (s : RadarState) : RadarState × List Event :=
  ({ s with currentAngle := DEFAULT_ANGLE }, [ .servoWrite DEFAULT_ANGLE, .delay 500 ])

/-! ## Display renderer -/

def ClearScreen : List Event := [ .clearScreen ]

def DrawRadarCurves : List Event :=
  [ Event.setColor 0 64 0 ]
  ++ ([1, 2, 3, 4].map (fun (i : Int) =>
        let radius := Int.tdiv (ScanLength * i) 4
        [ Event.drawCircle CenterX BasePosition radius .upperRightUpperLeft,
          Event.drawLine (.px (CenterX - radius)) (.px BasePosition)
            (.px (CenterX - radius)) (.px (BasePosition - 1)),
          Event.drawLine (.px (CenterX + radius)) (.px BasePosition)
            (.px (CenterX + radius)) (.px (BasePosition - 1)) ])).flatten
  ++ [ Event.setColor 0 255 0,
       Event.drawCircle CenterX BasePosition ScanLength .upperRightUpperLeft,
       Event.drawLine (.px (CenterX - ScanLength)) (.px BasePosition)
         (.px (CenterX - ScanLength)) (.px (BasePosition - 1)),
       Event.drawLine (.px (CenterX + ScanLength)) (.px BasePosition)
         (.px (CenterX + ScanLength)) (.px (BasePosition - 1)) ]

def DrawRadarRanges : List Event :=
  [ Event.drawLine (.px 0) (.px BasePosition) (.px ScreenWidth) (.px BasePosition),
    Event.drawLine (.px CenterX) (.px (BasePosition - ScanLength))
      (.px CenterX) (.px BasePosition) ]

def DrawDegreeGraduations : List Event :=
  [ Event.setFont .ncenR08_hr, Event.setColor 0 255 0 ]
  ++ ([0, 30, 60, 90, 120, 150, 180].map (fun (angle : Int) =>
        let x1 := Coord.plusCos CenterX (.ofInt (ScanLength - 5)) angle
        let y1 := Coord.minusSin BasePosition (.ofInt (ScanLength - 5)) angle
        let x2 := Coord.plusCos CenterX (.ofInt (ScanLength + 5)) angle
        let y2 := Coord.minusSin BasePosition (.ofInt (ScanLength + 5)) angle
        let degreeStr := toString angle ++ "Â°"
        let textX := Coord.plusCos CenterX (.ofInt (ScanLength + 15)) angle
        let textY := Coord.minusSin BasePosition (.ofInt (ScanLength + 15)) angle
        [ Event.drawLine x1 y1 x2 y2,
          Event.setPrintPos (.minusHalfStrWidth textX degreeStr) textY,
          Event.print degreeStr ])).flatten

def DrawDistanceMarkers : List Event :=
  [ Event.setFont .ncenR08_hr, Event.setColor 0 128 0 ]
  ++ ([25, 50, 75, 100].map (fun (dist : Int) =>
        let radius := Int.tdiv (ScanLength * dist) 100
        let distStr := toString dist
        [ Event.setPrintPos (.minusHalfStrWidth (.px CenterX) distStr)
            (.px (BasePosition - radius - 5)),
          Event.print distStr ])).flatten

def DisplayStartMessage : List Event :=
  ClearScreen
  ++ [ Event.setFont .ncenR08_hr,
       Event.setColor 0 255 0,
       Event.setPrintPos (.minusHalfStrWidth (.px (Int.tdiv ScreenWidth 2)) "Arduino Uno")
         (.px 40),
       Event.print "Arduino Uno",
       Event.setFont .ncenR12_hr,
       Event.setColor 0 255 0,
       Event.setPrintPos
         (.minusHalfStrWidth (.px (Int.tdiv ScreenWidth 2)) "Ultrasonic Sensor") (.px 65),
       Event.print "Ultrasonic Sensor",
       Event.setFont .ncenR08_hr,
       Event.setColor 255 255 255,
       Event.setPrintPos
         (.minusHalfStrWidth (.px (Int.tdiv ScreenWidth 2)) "Press Start Button") (.px 90),
       Event.print "Press Start Button" ]

def DisplayRadarScreen : List Event :=
  ClearScreen ++ DrawRadarCurves ++ DrawRadarRanges ++ DrawDegreeGraduations
    ++ DrawDistanceMarkers

/-! ## Scan step -/

def PerformScan (echo : Option Nat) (s : RadarState) : RadarState × List Event :=
  let measured := GetDistance echo
  let distance := measured.1
  let reactAngle :=
    if s.currentAngle ≤ 90 then wrap16 (90 - s.currentAngle)
    else wrap16 (450 - s.currentAngle)
  let report :=
    [ Event.serialPrint "Angle: ",
      Event.serialPrintInt reactAngle,
      Event.serialPrint " Distance: ",
      Event.serialPrintlnInt distance ]
  let x := Coord.plusCos CenterX (.ofInt ScanLength) s.currentAngle
  let y := Coord.minusSin BasePosition (.ofInt ScanLength) s.currentAngle
  let sweep :=
    [ Event.setColor 0 255 0,
      Event.drawLine (.px CenterX) (.px BasePosition) x y,
      Event.delay 20,
      Event.setColor 0 0 0,
      Event.drawLine (.px CenterX) (.px BasePosition) x y ]
  let marker :=
    if distance < 100 then
      let pointX := Coord.plusCos CenterX (.scaled115 distance) s.currentAngle
      let pointY := Coord.minusSin BasePosition (.scaled115 distance) s.currentAngle
      [ Event.setColor 255 0 0, Event.drawDisc pointX pointY 2 .all ]
    else []
  let moved := MoveRadar s.moveDirection s
  (moved.1, measured.2 ++ report ++ sweep ++ marker ++ moved.2)

/-! ## Command interpreter -/

/-- The block `if (Serial.available()) { ... }` of `loop`: `input` is the byte that
`Serial.read()` returns, `none` when nothing is available. -/
def loopCommand (input : Option Char) (s : RadarState) : RadarState × List Event :=
  match input with
  | none => (s, [])
  | some command =>
    let echoed := [ Event.serialPrint "Received command: ", Event.serialPrintlnChar command ]
    if command = 'S' then
      let s1 := { s with scanning := true }
      let r := SetDefaultPosition s1
      (r.1, echoed ++ [ Event.serialPrintln "Starting scan..." ] ++ r.2 ++ DisplayRadarScreen)
    else if command = 'T' then
      let s1 := { s with scanning := false, moveDirection := 0 }
      let r := SetDefaultPosition s1
      (r.1, echoed ++ [ Event.serialPrintln "Stopping scan..." ] ++ r.2 ++ DisplayStartMessage)
    else if command = 'L' then
      ({ s with moveDirection := -1 }, echoed)
    else if command = 'R' then
      ({ s with moveDirection := 1 }, echoed)
    else if command = 'M' then
      ({ s with moveDirection := 0 }, echoed)
    else
      (s, echoed ++ [ Event.serialPrintln "Unknown command" ])

/-- One iteration of `loop`. -/
def loop (input : Option Char) (echo : Option Nat) (s : RadarState) :
    RadarState × List Event :=
  let handled := loopCommand input s
  if handled.1.scanning then
    let scanned := PerformScan echo handled.1
    (scanned.1, handled.2 ++ scanned.2)
  else
    handled

/-- The function `setup`. -/
def setup (s : RadarState) : RadarState × List Event :=
  let r := SetDefaultPosition s
  (r.1,
    [ Event.ucgBegin, Event.setRotate90,
      Event.pinMode TRIG_PIN .OUTPUT, Event.pinMode ECHO_PIN .INPUT,
      Event.pinMode BUTTON_PIN .INPUT_PULLUP, Event.servoAttach SERVO_PIN ]
    ++ r.2
    ++ [ Event.serialBegin BAUD, Event.serialPrintln "Arduino Radar initialized" ]
    ++ DisplayStartMessage)

/-- A finite run of `loop`: one pair (inbound byte, echo) per iteration. -/
def run : List (Option Char × Option Nat) → RadarState → RadarState × List Event
  | [], s => (s, [])
  | step :: rest, s =>
    let first := loop step.1 step.2 s
    let later := run rest first.1
    (later.1, first.2 ++ later.2)

/-! ## Observations on traces -/

/-- The angles passed to `BaseServo.write`, in order. -/
def servoWrites (trace : List Event) : List Int :=
  trace.filterMap (fun e => match e with
    | .servoWrite angle => some angle
    | _ => none)

/-- Calls of `Serial.print` / `Serial.println`. -/
def isSerial : Event → Bool
  | .serialPrint _ => true
  | .serialPrintInt _ => true
  | .serialPrintln _ => true
  | .serialPrintlnChar _ => true
  | .serialPrintlnInt _ => true
  | _ => false

/-- What a trace sends to the serial output. -/
def serialOutput (trace : List Event) : List Event := trace.filter isSerial

/-- The detection marker: a call of `ucg.drawDisc`. -/
def isMarker : Event → Bool
  | .drawDisc _ _ _ _ => true
  | _ => false

/-- Calls of `ucg.drawLine`. -/
def isLine : Event → Bool
  | .drawLine _ _ _ _ => true
  | _ => false

/-- Calls that belong to the distance measurement. -/
def isMeasure : Event → Bool
  | .digitalWrite _ _ => true
  | .delayMicroseconds _ => true
  | .pulseIn _ _ => true
  | _ => false

/-- The stage of a scan step a call belongs to: 0 measure, 1 report, 2 render, 3 move.
`delay` is used by both the renderer and the actuator and has no stage of its own. -/
def stageOf : Event → Option Nat
  | .digitalWrite _ _ => some 0
  | .delayMicroseconds _ => some 0
  | .pulseIn _ _ => some 0
  | .serialPrint _ => some 1
  | .serialPrintInt _ => some 1
  | .serialPrintln _ => some 1
  | .serialPrintlnChar _ => some 1
  | .serialPrintlnInt _ => some 1
  | .setColor _ _ _ => some 2
  | .drawLine _ _ _ _ => some 2
  | .drawDisc _ _ _ _ => some 2
  | .servoWrite _ => some 3
  | _ => none

/-- The external reporting angle as the specification words it (section 4.1a):
`90 - a` when `a ≤ 90`, else `450 - a`. -/
def externalAngle (a : Int) : Int := if a ≤ 90 then 90 - a else 450 - a

/-- The range clamp as the specification words it: a value clamped to `[0,180]`. -/
def clampAngle (x : Int) : Int := max 0 (min 180 x)

/-! ## Basic facts -/

theorem wrap16_of_small (x : Int) (h0 : -32768 ≤ x) (h1 : x < 32768) : wrap16 x = x := by
  unfold wrap16
  omega

theorem constrain_bounds (x : Int) : 0 ≤ constrain x 0 180 ∧ constrain x 0 180 ≤ 180 := by
  unfold constrain
  split_ifs <;> omega

theorem constrain_eq_clampAngle (x : Int) : constrain x 0 180 = clampAngle x := by
  unfold constrain clampAngle
  split_ifs <;> omega

/-- After `setup` the globals still hold their initialisers. -/
theorem setup_state : (setup initialState).1 = initialState := rfl

/-! ## Actuator controller: `MoveRadar` -/

/-- C7: for a current angle `a` in `[0,180]` and a direction `d` in `{-1, 0, +1}`,
`MoveRadar d` leaves `currentAngle` equal to `a + d` clamped to `[0,180]`, writes exactly
that value (once) to the servo, touches no other global, and changes the angle by at most
1 in absolute value: by 0 at `a = 0, d = -1` and at `a = 180, d = +1`. -/
theorem moveRadar_clamped_step (s : RadarState) (d : Int)
    (h0 : 0 ≤ s.currentAngle) (h180 : s.currentAngle ≤ 180)
    (hd : d = -1 ∨ d = 0 ∨ d = 1) :
    (MoveRadar d s).1.currentAngle = clampAngle (s.currentAngle + d)
    ∧ servoWrites (MoveRadar d s).2 = [clampAngle (s.currentAngle + d)]
    ∧ (MoveRadar d s).1.scanning = s.scanning
    ∧ (MoveRadar d s).1.moveDirection = s.moveDirection
    ∧ |(MoveRadar d s).1.currentAngle - s.currentAngle| ≤ 1
    ∧ (s.currentAngle = 0 ∧ d = -1 → (MoveRadar d s).1.currentAngle = s.currentAngle)
    ∧ (s.currentAngle = 180 ∧ d = 1 → (MoveRadar d s).1.currentAngle = s.currentAngle) := by
  have hw : wrap16 (s.currentAngle + d) = s.currentAngle + d :=
    wrap16_of_small _ (by omega) (by omega)
  have hc := constrain_eq_clampAngle (s.currentAngle + d)
  have hval : (MoveRadar d s).1.currentAngle = clampAngle (s.currentAngle + d) := by
    simp only [MoveRadar, hw, hc]
  refine ⟨hval, ?_, rfl, rfl, ?_, ?_, ?_⟩
  · simp only [MoveRadar, servoWrites, hw, hc, List.filterMap_cons, List.filterMap_nil]
  · rw [hval, abs_le]
    unfold clampAngle
    constructor <;> omega
  · rintro ⟨ha, hd1⟩
    rw [hval]
    unfold clampAngle
    omega
  · rintro ⟨ha, hd1⟩
    rw [hval]
    unfold clampAngle
    omega

/-- C7 at the upper end stop: angle 180, direction +1. -/
theorem moveRadar_clamped_step_witness :
    (MoveRadar 1 { scanning := true, currentAngle := 180, moveDirection := 1 }).1.currentAngle
        = clampAngle (180 + 1)
    ∧ servoWrites
        (MoveRadar 1 { scanning := true, currentAngle := 180, moveDirection := 1 }).2
        = [180] := by
  have h := moveRadar_clamped_step
    { scanning := true, currentAngle := 180, moveDirection := 1 } 1
    (by decide) (by decide) (by decide)
  exact ⟨h.1, h.2.1⟩

/-! ## Scan step: telemetry -/

/-- The trace of a scan step, stage by stage. -/
theorem performScan_trace (echo : Option Nat) (s : RadarState) :
    (PerformScan echo s).2 =
      (GetDistance echo).2
      ++ [ Event.serialPrint "Angle: ",
           Event.serialPrintInt
             (if s.currentAngle ≤ 90 then wrap16 (90 - s.currentAngle)
              else wrap16 (450 - s.currentAngle)),
           Event.serialPrint " Distance: ",
           Event.serialPrintlnInt (GetDistance echo).1 ]
      ++ [ Event.setColor 0 255 0,
           Event.drawLine (.px CenterX) (.px BasePosition)
             (.plusCos CenterX (.ofInt ScanLength) s.currentAngle)
             (.minusSin BasePosition (.ofInt ScanLength) s.currentAngle),
           Event.delay 20,
           Event.setColor 0 0 0,
           Event.drawLine (.px CenterX) (.px BasePosition)
             (.plusCos CenterX (.ofInt ScanLength) s.currentAngle)
             (.minusSin BasePosition (.ofInt ScanLength) s.currentAngle) ]
      ++ (if (GetDistance echo).1 < 100 then
            [ Event.setColor 255 0 0,
              Event.drawDisc
                (.plusCos CenterX (.scaled115 (GetDistance echo).1) s.currentAngle)
                (.minusSin BasePosition (.scaled115 (GetDistance echo).1) s.currentAngle)
                2 .all ]
          else [])
      ++ (MoveRadar s.moveDirection s).2 := rfl

/-- The state after a scan step is the state after `MoveRadar`. -/
theorem performScan_state (echo : Option Nat) (s : RadarState) :
    (PerformScan echo s).1 = (MoveRadar s.moveDirection s).1 := rfl

/-- What a scan step sends to the serial output, for any state: one line, with the
converted angle and the measured distance. -/
theorem performScan_serialOutput (echo : Option Nat) (s : RadarState) :
    serialOutput (PerformScan echo s).2 =
      [ Event.serialPrint "Angle: ",
        Event.serialPrintInt
          (if s.currentAngle ≤ 90 then wrap16 (90 - s.currentAngle)
           else wrap16 (450 - s.currentAngle)),
        Event.serialPrint " Distance: ",
        Event.serialPrintlnInt (GetDistance echo).1 ] := by
  rw [performScan_trace]
  split_ifs <;> rfl

/-- C2: for an internal angle `a` in `[0,180]` the telemetry line of a scan step reports
`90 - a` when `a ≤ 90` and `450 - a` otherwise; it reports 90 for `a = 0`, 0 for `a = 90`
and 270 for `a = 180`. -/
theorem performScan_reports_external_angle (echo : Option Nat) (s : RadarState)
    (h0 : 0 ≤ s.currentAngle) (h180 : s.currentAngle ≤ 180) :
    serialOutput (PerformScan echo s).2 =
      [ Event.serialPrint "Angle: ",
        Event.serialPrintInt (externalAngle s.currentAngle),
        Event.serialPrint " Distance: ",
        Event.serialPrintlnInt (GetDistance echo).1 ]
    ∧ (s.currentAngle ≤ 90 → externalAngle s.currentAngle = 90 - s.currentAngle)
    ∧ (90 < s.currentAngle → externalAngle s.currentAngle = 450 - s.currentAngle)
    ∧ (s.currentAngle = 0 → externalAngle s.currentAngle = 90)
    ∧ (s.currentAngle = 90 → externalAngle s.currentAngle = 0)
    ∧ (s.currentAngle = 180 → externalAngle s.currentAngle = 270) := by
  refine ⟨?_, ?_, ?_, ?_, ?_, ?_⟩
  · rw [performScan_serialOutput]
    have h1 : wrap16 (90 - s.currentAngle) = 90 - s.currentAngle :=
      wrap16_of_small _ (by omega) (by omega)
    have h2 : wrap16 (450 - s.currentAngle) = 450 - s.currentAngle :=
      wrap16_of_small _ (by omega) (by omega)
    simp only [h1, h2, externalAngle]
  · intro h
    simp [externalAngle, h]
  · intro h
    have : ¬ s.currentAngle ≤ 90 := by omega
    simp [externalAngle, this]
  · intro h
    simp [externalAngle, h]
  · intro h
    simp [externalAngle, h]
  · intro h
    simp [externalAngle, h]

/-- C2 at the three angles the specification names, with an echo of 600 microseconds. -/
theorem performScan_reports_external_angle_witness :
    (serialOutput
        (PerformScan (some 600) { scanning := true, currentAngle := 0, moveDirection := 1 }).2
      = [ Event.serialPrint "Angle: ", Event.serialPrintInt 90,
          Event.serialPrint " Distance: ", Event.serialPrintlnInt 10 ])
    ∧ (serialOutput
        (PerformScan (some 600) { scanning := true, currentAngle := 90, moveDirection := 1 }).2
      = [ Event.serialPrint "Angle: ", Event.serialPrintInt 0,
          Event.serialPrint " Distance: ", Event.serialPrintlnInt 10 ])
    ∧ (serialOutput
        (PerformScan (some 600) { scanning := true, currentAngle := 180, moveDirection := 1 }).2
      = [ Event.serialPrint "Angle: ", Event.serialPrintInt 270,
          Event.serialPrint " Distance: ", Event.serialPrintlnInt 10 ]) := by
  refine ⟨?_, ?_, ?_⟩
  · exact (performScan_reports_external_angle (some 600)
      { scanning := true, currentAngle := 0, moveDirection := 1 } (by decide) (by decide)).1
  · exact (performScan_reports_external_angle (some 600)
      { scanning := true, currentAngle := 90, moveDirection := 1 } (by decide) (by decide)).1
  · exact (performScan_reports_external_angle (some 600)
      { scanning := true, currentAngle := 180, moveDirection := 1 } (by decide) (by decide)).1

/-! ## Range invariant of the angle -/

theorem servoWrites_append (t u : List Event) :
    servoWrites (t ++ u) = servoWrites t ++ servoWrites u := by
  simp [servoWrites, List.filterMap_append]

theorem servoWrites_displayRadarScreen : servoWrites DisplayRadarScreen = [] := rfl

theorem servoWrites_displayStartMessage : servoWrites DisplayStartMessage = [] := rfl

theorem servoWrites_performScan (echo : Option Nat) (s : RadarState) :
    servoWrites (PerformScan echo s).2
      = [constrain (wrap16 (s.currentAngle + s.moveDirection)) 0 180] := by
  rw [performScan_trace]
  split_ifs <;> rfl

theorem performScan_angle (echo : Option Nat) (s : RadarState) :
    (PerformScan echo s).1.currentAngle
      = constrain (wrap16 (s.currentAngle + s.moveDirection)) 0 180 := rfl

/-- The command block either keeps the angle or resets it to 90, and writes nothing but
90 to the servo. -/
theorem loopCommand_angle (input : Option Char) (s : RadarState) :
    ((loopCommand input s).1.currentAngle = s.currentAngle
      ∨ (loopCommand input s).1.currentAngle = 90)
    ∧ ∀ a ∈ servoWrites (loopCommand input s).2, a = 90 := by
  cases input with
  | none => exact ⟨Or.inl rfl, by intro a ha; simp [loopCommand, servoWrites] at ha⟩
  | some c =>
    unfold loopCommand
    simp only
    split_ifs
    · refine ⟨Or.inr rfl, ?_⟩
      intro a ha
      simp only [servoWrites_append, servoWrites_displayRadarScreen, List.append_nil] at ha
      simp [servoWrites, SetDefaultPosition, DEFAULT_ANGLE] at ha
      exact ha
    · refine ⟨Or.inr rfl, ?_⟩
      intro a ha
      simp only [servoWrites_append, servoWrites_displayStartMessage, List.append_nil] at ha
      simp [servoWrites, SetDefaultPosition, DEFAULT_ANGLE] at ha
      exact ha
    · exact ⟨Or.inl rfl, by intro a ha; simp [servoWrites] at ha⟩
    · exact ⟨Or.inl rfl, by intro a ha; simp [servoWrites] at ha⟩
    · exact ⟨Or.inl rfl, by intro a ha; simp [servoWrites] at ha⟩
    · exact ⟨Or.inl rfl, by intro a ha; simp [servoWrites] at ha⟩

/-- One iteration of `loop` keeps the angle in `[0,180]` and writes only angles in
`[0,180]` to the servo. -/
theorem loop_angle_in_range (input : Option Char) (echo : Option Nat) (s : RadarState)
    (h0 : 0 ≤ s.currentAngle) (h180 : s.currentAngle ≤ 180) :
    (0 ≤ (loop input echo s).1.currentAngle ∧ (loop input echo s).1.currentAngle ≤ 180)
    ∧ ∀ a ∈ servoWrites (loop input echo s).2, 0 ≤ a ∧ a ≤ 180 := by
  obtain ⟨hang, hw⟩ := loopCommand_angle input s
  unfold loop
  simp only
  split_ifs
  · refine ⟨?_, ?_⟩
    · rw [performScan_angle]
      exact constrain_bounds _
    · intro a ha
      rw [servoWrites_append, servoWrites_performScan, List.mem_append] at ha
      rcases ha with ha | ha
      · have := hw a ha
        omega
      · rw [List.mem_singleton] at ha
        rw [ha]
        exact constrain_bounds _
  · refine ⟨?_, ?_⟩
    · rcases hang with h | h <;> omega
    · intro a ha
      have := hw a ha
      omega

/-- The invariant along a run, from any state whose angle is in range. -/
theorem run_angle_in_range (steps : List (Option Char × Option Nat)) (s : RadarState)
    (h0 : 0 ≤ s.currentAngle) (h180 : s.currentAngle ≤ 180) :
    (0 ≤ (run steps s).1.currentAngle ∧ (run steps s).1.currentAngle ≤ 180)
    ∧ ∀ a ∈ servoWrites (run steps s).2, 0 ≤ a ∧ a ≤ 180 := by
  induction steps generalizing s with
  | nil =>
    refine ⟨⟨h0, h180⟩, ?_⟩
    intro a ha
    simp [run, servoWrites] at ha
  | cons step rest ih =>
    obtain ⟨hs, hw⟩ := loop_angle_in_range step.1 step.2 s h0 h180
    obtain ⟨hs2, hw2⟩ := ih (loop step.1 step.2 s).1 hs.1 hs.2
    refine ⟨hs2, ?_⟩
    intro a ha
    simp only [run] at ha
    rw [servoWrites_append, List.mem_append] at ha
    rcases ha with ha | ha
    · exact hw a ha
    · exact hw2 a ha

/-- C1: from the initial state (`scanning = false`, `currentAngle = 90`,
`moveDirection = 0`), for every finite sequence of loop iterations, whatever byte (or no
byte) and whatever echo each iteration sees, `currentAngle` is within `[0,180]` after
every iteration (after every prefix of the sequence) and every angle written to the servo
is within `[0,180]`. -/
theorem currentAngle_always_in_range (steps : List (Option Char × Option Nat)) (k : Nat) :
    initialState = { scanning := false, currentAngle := 90, moveDirection := 0 }
    ∧ 0 ≤ (run (steps.take k) initialState).1.currentAngle
    ∧ (run (steps.take k) initialState).1.currentAngle ≤ 180
    ∧ ∀ a ∈ servoWrites (run steps initialState).2, 0 ≤ a ∧ a ≤ 180 := by
  have h1 := run_angle_in_range (steps.take k) initialState (by decide) (by decide)
  have h2 := run_angle_in_range steps initialState (by decide) (by decide)
  exact ⟨rfl, h1.1.1, h1.1.2, h2.2⟩

/-! ## Unrecognised command bytes -/

/-- C4, as stated, fails: with no echo `GetDistance` returns 0, which is below the
threshold 100, and the scan step (here at angle 90) draws the detection marker. -/
theorem no_echo_marker_drawn :
    (GetDistance none).1 = 0
    ∧ ¬ (100 ≤ (GetDistance none).1)
    ∧ (PerformScan none { scanning := true, currentAngle := 90, moveDirection := 0 }).2.filter
          isMarker
        = [ Event.drawDisc (.plusCos 80 (.scaled115 0) 90) (.minusSin 118 (.scaled115 0) 90)
              2 .all ] := by
  refine ⟨by decide, by decide, by decide⟩

/-- C4, amended: when no echo is observed within the timeout (`pulseIn` yields 0),
`GetDistance` returns 0, an in-range value, and the scan step that uses it draws the
sweep line (and erases it) and also draws a detection marker, at radius `1.15 * 0` from
the sweep origin in the direction of the current angle. -/
theorem no_echo_distance_zero_and_marker (s : RadarState) :
    pulseIn none = 0
    ∧ (GetDistance none).1 = 0
    ∧ (GetDistance none).1 < 100
    ∧ (PerformScan none s).2.filter isLine
        = [ Event.drawLine (.px CenterX) (.px BasePosition)
              (.plusCos CenterX (.ofInt ScanLength) s.currentAngle)
              (.minusSin BasePosition (.ofInt ScanLength) s.currentAngle),
            Event.drawLine (.px CenterX) (.px BasePosition)
              (.plusCos CenterX (.ofInt ScanLength) s.currentAngle)
              (.minusSin BasePosition (.ofInt ScanLength) s.currentAngle) ]
    ∧ (PerformScan none s).2.filter isMarker
        = [ Event.drawDisc (.plusCos CenterX (.scaled115 0) s.currentAngle)
              (.minusSin BasePosition (.scaled115 0) s.currentAngle) 2 .all ] := by
  have hd : (GetDistance none).1 = 0 := by decide
  refine ⟨rfl, hd, by rw [hd]; decide, ?_, ?_⟩
  · rw [performScan_trace, hd]
    rfl
  · rw [performScan_trace, hd]
    rfl

/-! ## Start and stop commands -/

/-- The command block on `'S'`. -/
theorem loopCommand_start (s : RadarState) :
    loopCommand (some 'S') s
      = ({ scanning := true, currentAngle := 90, moveDirection := s.moveDirection },
         [ Event.serialPrint "Received command: ",
           Event.serialPrintlnChar 'S',
           Event.serialPrintln "Starting scan...",
           Event.servoWrite 90,
           Event.delay 500 ] ++ DisplayRadarScreen) := by
  simp [loopCommand, SetDefaultPosition, DEFAULT_ANGLE]

/-- The stages of the calls of a scan step, in program order. -/
theorem performScan_stages (echo : Option Nat) (s : RadarState) :
    (PerformScan echo s).2.filterMap stageOf
      = if (GetDistance echo).1 < 100
        then [0, 0, 0, 0, 0, 0, 1, 1, 1, 1, 2, 2, 2, 2, 2, 2, 3]
        else [0, 0, 0, 0, 0, 0, 1, 1, 1, 1, 2, 2, 2, 2, 3] := by
  rw [performScan_trace]
  split_ifs <;> rfl

/-- C6: every scan step performs its effects in the order measure distance (stage 0),
emit the telemetry line (stage 1), render the sweep line (stage 2), command the actuator
(stage 3): the stages of its calls never decrease and each stage occurs.  The angle of
the telemetry line and of the sweep line end point is the value `currentAngle` has at the
start of the step; the servo is written once, last, with the angle after `MoveRadar`. -/
theorem performScan_order (echo : Option Nat) (s : RadarState) :
    ((PerformScan echo s).2.filterMap stageOf).Pairwise (fun i j => i ≤ j)
    ∧ (0 ∈ (PerformScan echo s).2.filterMap stageOf
        ∧ 1 ∈ (PerformScan echo s).2.filterMap stageOf
        ∧ 2 ∈ (PerformScan echo s).2.filterMap stageOf
        ∧ 3 ∈ (PerformScan echo s).2.filterMap stageOf)
    ∧ (PerformScan echo s).2.filter isMeasure = (GetDistance echo).2
    ∧ serialOutput (PerformScan echo s).2
        = [ Event.serialPrint "Angle: ",
            Event.serialPrintInt
              (if s.currentAngle ≤ 90 then wrap16 (90 - s.currentAngle)
               else wrap16 (450 - s.currentAngle)),
            Event.serialPrint " Distance: ",
            Event.serialPrintlnInt (GetDistance echo).1 ]
    ∧ (PerformScan echo s).2.filter isLine
        = [ Event.drawLine (.px CenterX) (.px BasePosition)
              (.plusCos CenterX (.ofInt ScanLength) s.currentAngle)
              (.minusSin BasePosition (.ofInt ScanLength) s.currentAngle),
            Event.drawLine (.px CenterX) (.px BasePosition)
              (.plusCos CenterX (.ofInt ScanLength) s.currentAngle)
              (.minusSin BasePosition (.ofInt ScanLength) s.currentAngle) ]
    ∧ servoWrites (PerformScan echo s).2 = [(PerformScan echo s).1.currentAngle]
    ∧ (PerformScan echo s).1.currentAngle
        = constrain (wrap16 (s.currentAngle + s.moveDirection)) 0 180
    ∧ (∃ before, (PerformScan echo s).2
        = before ++ [ Event.servoWrite (PerformScan echo s).1.currentAngle, Event.delay 15 ]) := by
  refine ⟨?_, ?_, ?_, performScan_serialOutput echo s, ?_, ?_, rfl, ?_⟩
  · rw [performScan_stages]
    split_ifs <;> decide
  · rw [performScan_stages]
    split_ifs <;> decide
  · rw [performScan_trace]
    split_ifs <;> rfl
  · rw [performScan_trace]
    split_ifs <;> rfl
  · rw [servoWrites_performScan]
    rfl
  · rw [performScan_trace]
    exact ⟨_, rfl⟩

/-! ## Detection marker -/

/-- C9: for every state (every angle) and every echo (every measured distance), a scan
step draws the detection marker if and only if the measured distance is strictly less
than 100; for a distance of 100 or more `drawDisc` is not called at all.  When it is
drawn, it is drawn once, at radius `1.15 * distance` in the direction of the angle. -/
theorem marker_iff_distance_lt_100 (echo : Option Nat) (s : RadarState) :
    ((∃ x y r o, Event.drawDisc x y r o ∈ (PerformScan echo s).2)
        ↔ (GetDistance echo).1 < 100)
    ∧ ((PerformScan echo s).2.filter isMarker
        = if (GetDistance echo).1 < 100 then
            [ Event.drawDisc
                (.plusCos CenterX (.scaled115 (GetDistance echo).1) s.currentAngle)
                (.minusSin BasePosition (.scaled115 (GetDistance echo).1) s.currentAngle)
                2 .all ]
          else [])
    ∧ (100 ≤ (GetDistance echo).1 → (PerformScan echo s).2.filter isMarker = []) := by
  have hfilter : (PerformScan echo s).2.filter isMarker
      = if (GetDistance echo).1 < 100 then
          [ Event.drawDisc
              (.plusCos CenterX (.scaled115 (GetDistance echo).1) s.currentAngle)
              (.minusSin BasePosition (.scaled115 (GetDistance echo).1) s.currentAngle)
              2 .all ]
        else [] := by
    rw [performScan_trace]
    split_ifs <;> rfl
  refine ⟨?_, hfilter, ?_⟩
  · constructor
    · rintro ⟨x, y, r, o, hmem⟩
      by_contra hge
      have hin : Event.drawDisc x y r o ∈ (PerformScan echo s).2.filter isMarker :=
        List.mem_filter.mpr ⟨hmem, rfl⟩
      rw [hfilter, if_neg hge] at hin
      exact List.not_mem_nil _ hin
    · intro hlt
      refine ⟨_, _, _, _, (List.mem_filter.mp (?_ :
        Event.drawDisc
          (.plusCos CenterX (.scaled115 (GetDistance echo).1) s.currentAngle)
          (.minusSin BasePosition (.scaled115 (GetDistance echo).1) s.currentAngle)
          2 .all ∈ (PerformScan echo s).2.filter isMarker)).1⟩
      rw [hfilter, if_pos hlt]
      exact List.mem_singleton.mpr rfl
  · intro hge
    rw [hfilter, if_neg (by omega)]

/-- The threshold on concrete echoes: 5882 microseconds measure 99 (marker drawn), 5883
microseconds measure 100 (no marker). -/
theorem marker_threshold_examples :
    (GetDistance (some 5882)).1 = 99
    ∧ (GetDistance (some 5883)).1 = 100
    ∧ (PerformScan (some 5882) initialState).2.filter isMarker
        = [ Event.drawDisc (.plusCos 80 (.scaled115 99) 90) (.minusSin 118 (.scaled115 99) 90)
              2 .all ]
    ∧ (PerformScan (some 5883) initialState).2.filter isMarker = [] := by
  refine ⟨by decide, by decide, by decide, by decide⟩

/-! ## The start command keeps the direction -/

/-- C10: the start command does not reset `moveDirection`: for every state, handling
`'S'` leaves `moveDirection` unchanged, and the scan step of the same iteration applies
it to the angle 90 just set.  From the initial state the bytes `'L'`, `'S'` end the
second iteration with `currentAngle = 89`. -/
theorem start_keeps_moveDirection (echo echo2 : Option Nat) (s : RadarState) :
    (loopCommand (some 'S') s).1.moveDirection = s.moveDirection
    ∧ (loop (some 'S') echo s).1.moveDirection = s.moveDirection
    ∧ (loop (some 'S') echo s).1.currentAngle
        = constrain (wrap16 (90 + s.moveDirection)) 0 180
    ∧ (run [(some 'L', echo), (some 'S', echo2)] initialState).1.currentAngle = 89
    ∧ (run [(some 'L', echo), (some 'S', echo2)] initialState).1.moveDirection = -1 := by
  have hloop : ∀ (e : Option Nat) (t : RadarState), (loop (some 'S') e t).1
      = (PerformScan e
          { scanning := true, currentAngle := 90, moveDirection := t.moveDirection }).1 := by
    intro e t
    simp [loop, loopCommand_start]
  have hL : (loop (some 'L') echo initialState).1
      = { scanning := false, currentAngle := 90, moveDirection := -1 } := by
    simp [loop, loopCommand, initialState]
  refine ⟨by rw [loopCommand_start], by rw [hloop]; rfl, by rw [hloop]; rfl, ?_, ?_⟩
  · simp only [run, hL, hloop]
    rfl
  · simp only [run, hL, hloop]
    rfl

end Radar
